import Mathlib

/-!
Shallow embedding of the command-execution substrate of the repository
`Kurry/mac_computer_use` (files `src/tools/run.py` and `src/tools/bash.py`),
together with theorems settling the specification claims about it.

Modelling conventions:
* Python strings are Lean `String`s (decoding of the child's byte streams is
  treated as the identity on already-decoded text).
* Python `int` is `Int`; `None` is `Option.none`.
* The float timeout values (`120.0`, `30.0`) are carried as `Rat` (they are
  exact; no arithmetic is performed on them).
* `raise`d exceptions become explicit outcome constructors; the exact Python
  message text is recorded in comments next to each constructor.
* The asynchronous environment (what the OS child process does) is passed in
  explicitly: a `ProcOutcome` for the one-shot runner, a `SessionEnv` (the
  successive stdout-buffer snapshots seen by the polling loop) for the
  persistent session, and a per-attempt outcome function for the retry loop.
* Side effects on the outside world (writing to the shell's stdin, signalling
  a process group) are returned as explicit fields of the result records, so
  frame claims can be stated.
-/

namespace MacComputerUse

/-! ## OutputTruncator — `src/tools/run.py` lines 27–58 -/

/-- Constant `TRUNCATED_MESSAGE` from `run.py`: the fixed notice appended when output
is clipped. -/
def TRUNCATED_MESSAGE : String :=
  "<response clipped><NOTE>To save on context only part of this file has been shown to you. You should retry this tool after you have searched inside the file with `grep -n` in order to find the line numbers of what you are looking for.</NOTE>"

/-- Constant `MAX_RESPONSE_LEN` from `run.py`. -/
def MAX_RESPONSE_LEN : Int := 16000

/-- Function `maybe_truncate(content, truncate_after)` from `run.py`.

Python:
```
if truncate_after is not None and truncate_after < 0:
    raise ValueError("truncate_after must be non-negative or None.")
if not truncate_after or len(content) <= truncate_after:
    return content
return content[:truncate_after] + TRUNCATED_MESSAGE
```
The `ValueError` is modelled as `Except.error` carrying the message. Note the
truthiness test `not truncate_after` is `True` both for `None` and for `0`. -/
def maybe_truncate (content : String) (truncate_after : Option Int) : Except String String :=
  match truncate_after with
  | none => Except.ok content
  | some t =>
    if t < 0 then Except.error "truncate_after must be non-negative or None."
    else if t = 0 ∨ (content.length : Int) ≤ t then Except.ok content
    else Except.ok (content.take t.toNat ++ TRUNCATED_MESSAGE)

/-! ## Helpers for Python string operations -/

/-- The whitespace characters stripped by Python `str.strip()` (ASCII part). -/
def pyIsSpace (c : Char) : Bool :=
  c = ' ' || c = '\t' || c = '\n' || c = '\x0d' || c = '\x0b' || c = '\x0c'

/-- Python `s.strip()`: remove leading and trailing whitespace. -/
def pyStrip (s : String) : String :=
  String.mk (((s.toList.dropWhile pyIsSpace).reverse.dropWhile pyIsSpace).reverse)

/-- Python `s.split()[0]` as a total function: the first maximal run of
non-whitespace characters, or `none` when the string has none (in which case
the Python indexing raises `IndexError`). -/
def firstToken (s : String) : Option String :=
  match (s.toList.dropWhile pyIsSpace).takeWhile (fun c => !pyIsSpace c) with
  | [] => none
  | l => some (String.mk l)

/-! ## OneShotRunner — `run(cmd, timeout, truncate_after)`, `run.py` lines 61–184 -/

/-- What the spawned child process does, as observed by `asyncio.wait_for`:
either `process.communicate()` returns (carrying `process.returncode`, which
is `None` only in theory, and the raw stdout/stderr text), or the wait times
out; in the latter case `groupAlive` records whether the process group still
exists when `os.killpg` is attempted. -/
inductive ProcOutcome
  | completed (returncode : Option Int) (stdout stderr : String)
  | timedOut (groupAlive : Bool)
deriving DecidableEq, Repr

/-- Failures raised by `run`:
* `invalidArgument msg` — the `ValueError` propagated out of `maybe_truncate`;
* `timedOut cmd t` — `TimeoutError(f"Command '{cmd}' timed out after {t} seconds")`. -/
inductive RunError
  | invalidArgument (msg : String)
  | timedOut (cmd : String) (timeout : Option Rat)
deriving DecidableEq, Repr

instance {ε α : Type} [DecidableEq ε] [DecidableEq α] : DecidableEq (Except ε α) := fun x y =>
  match x, y with
  | Except.ok a, Except.ok b =>
    if h : a = b then Decidable.isTrue (by rw [h])
    else Decidable.isFalse (by simp [h])
  | Except.error a, Except.error b =>
    if h : a = b then Decidable.isTrue (by rw [h])
    else Decidable.isFalse (by simp [h])
  | Except.ok _, Except.error _ => Decidable.isFalse (by simp)
  | Except.error _, Except.ok _ => Decidable.isFalse (by simp)

/-- Result of one `run` call plus its externally visible effects:
`termAttempted` records whether `os.killpg(..., SIGTERM)` was attempted on the
child's process group, and `termDelivered` whether the group still existed to
receive it (a `ProcessLookupError` is swallowed). -/
structure RunEffect where
  result : Except RunError (Int × String × String)
  termAttempted : Bool
  termDelivered : Bool
deriving DecidableEq, Repr

/-- Function `run` from `run.py`. On completion: both streams are decoded, stripped via
`str.strip()`, then independently truncated by `maybe_truncate`, and the
returned code is `process.returncode or 0` (i.e. `Option.getD rc 0`). On
timeout: SIGTERM is sent to the whole process group (already-gone is a benign
no-op) and `TimeoutError` is raised carrying the command and the timeout. -/
def run (cmd : String) (timeout : Option Rat) (truncate_after : Option Int)
    (env : ProcOutcome) : RunEffect :=
  match env with
  | ProcOutcome.completed rc out err =>
    match maybe_truncate (pyStrip out) truncate_after,
          maybe_truncate (pyStrip err) truncate_after with
    | Except.ok o, Except.ok e =>
      ⟨Except.ok (rc.getD 0, o, e), false, false⟩
    | Except.error m, _ => ⟨Except.error (RunError.invalidArgument m), false, false⟩
    | _, Except.error m => ⟨Except.error (RunError.invalidArgument m), false, false⟩
  | ProcOutcome.timedOut groupAlive =>
    ⟨Except.error (RunError.timedOut cmd timeout), true, groupAlive⟩

/-! ## PersistentSession — `_BashSession`, `src/tools/bash.py` lines 12–105 -/

/-- The mutable state of a `_BashSession` instance: `_started` and
`_timed_out` from `__init__`, plus the exit status of the underlying
`/bin/bash` process (`self._process.returncode`; `none` while the shell is
still running, and meaningless before `start`). -/
structure BashSessionState where
  started : Bool
  timed_out : Bool
  returncode : Option Int
deriving DecidableEq, Repr

namespace BashSession

/-- Class attribute `_BashSession._sentinel`, `bash.py` line 21 — a class attribute, so a
single fixed literal. -/
def _sentinel : String := "<<exit>>"

/-- The sentinel string of a given session instance (`self._sentinel`).
Because `_sentinel` is a class attribute and no instance ever shadows it,
every instance reads the same literal. -/
def sentinelOf (_ : BashSessionState) : String := _sentinel

/-- Python `needle in hay` / `hay.index(needle)` combined: the character
index of the first occurrence of `needle` in `hay`, or `none`. -/
def strIndexOf? (hay needle : String) : Option Nat :=
  go hay.toList 0
where
  go : List Char → Nat → Option Nat
    | [], i => if needle.toList = [] then some i else none
    | c :: rest, i =>
      if needle.toList.isPrefixOf (c :: rest) then some i
      else go rest (i + 1)

/-- The polling loop of `run` (`bash.py` lines 77–87), abstracted over the
buffer snapshots the loop observes: `polls` is the successive contents of
`self._process.stdout._buffer` at each wake-up within the timeout window.
The loop breaks at the first snapshot containing the sentinel, keeping the
text before it (`output[: output.index(self._sentinel)]`); if no snapshot in
the window contains the sentinel, `asyncio.timeout` fires (`none`). -/
def pollForSentinel : List String → Option String
  | [] => none
  | b :: rest =>
    match strIndexOf? b _sentinel with
    | some i => some (b.take i)
    | none => pollForSentinel rest

/-- Python `if s.endswith("\n"): s = s[:-1]` (`bash.py` lines 94–99). -/
def chopNl (s : String) : String :=
  match s.toList.getLast? with
  | some c => if c = '\n' then String.mk s.toList.dropLast else s
  | none => s

/-- The environment observed by one `run` call: the stdout-buffer snapshots
seen by the polling loop before the per-call timeout, and the content of the
stderr buffer when the loop breaks. -/
structure SessionEnv where
  polls : List String
  stderrBuf : String
deriving DecidableEq, Repr

/-- Outcome of `start` (`bash.py` lines 27–41). The code returns silently
when `self._started` is already set (`noop`) and otherwise spawns the shell
(`spawned`). `raisedAlreadyStarted` is how the specification's predicted
`AlreadyStarted` failure would be expressed; the code never produces it. -/
inductive StartOutcome
  | spawned
  | noop
  | raisedAlreadyStarted
deriving DecidableEq, Repr

/-- Model of `_BashSession.start`: a no-op when already started; otherwise spawns
`/bin/bash` (fresh process, so `returncode` becomes `none`) and sets
`_started`. -/
def start (s : BashSessionState) : StartOutcome × BashSessionState :=
  if s.started then (StartOutcome.noop, s)
  else (StartOutcome.spawned, { s with started := true, returncode := none })

/-- Outcome of `_BashSession.run`:
* `raisedNotStarted` — `ToolError("Session has not started.")`;
* `exitedResult rc` — normal return of
  `ToolResult(system="tool must be restarted", error=f"bash has exited with returncode {rc}")`;
* `raisedAlreadyTimedOut` — the pre-check raise at lines 60–63,
  `ToolError(f"timed out: bash has not returned in 120.0 seconds and must be restarted")`;
* `raisedTimedOut` — the in-flight raise at lines 88–92 (same message text);
* `ok output error` — normal return of `CLIResult(output=output, error=error)`. -/
inductive SessionRunResult
  | raisedNotStarted
  | exitedResult (rc : Int)
  | raisedAlreadyTimedOut
  | raisedTimedOut
  | ok (output error : String)
deriving DecidableEq, Repr

/-- One `run` call's result together with its effects: `stdinWritten` is the
exact text written to the shell's stdin (`none` when nothing was written),
`signaledProcess` records whether the session sent any signal to the shell
process (`run` never does; only `stop` calls `terminate`), and `state'` is
the session state afterwards. -/
structure SessionRunEffect where
  result : SessionRunResult
  stdinWritten : Option String
  signaledProcess : Bool
  state' : BashSessionState
deriving DecidableEq, Repr

/-- Model of `_BashSession.run(command)`, `bash.py` lines 51–105. Checks, in order:
not started (raise); shell already exited (return the restart `ToolResult`);
session already timed out (raise). Otherwise writes
`command + "; echo '<<exit>>'\n"` to stdin and polls the stdout buffer for
the sentinel. On timeout the `_timed_out` flag is set permanently and a
`ToolError` is raised; the shell process is not signalled. On success the
output before the sentinel and the stderr buffer are returned, each with one
trailing newline stripped. -/
def run (s : BashSessionState) (command : String) (env : SessionEnv) :
    SessionRunEffect :=
  if !s.started then ⟨SessionRunResult.raisedNotStarted, none, false, s⟩
  else
    match s.returncode with
    | some rc => ⟨SessionRunResult.exitedResult rc, none, false, s⟩
    | none =>
      if s.timed_out then ⟨SessionRunResult.raisedAlreadyTimedOut, none, false, s⟩
      else
        let written := command ++ "; echo '" ++ _sentinel ++ "'\n"
        match pollForSentinel env.polls with
        | none =>
          ⟨SessionRunResult.raisedTimedOut, some written, false,
            { s with timed_out := true }⟩
        | some out =>
          ⟨SessionRunResult.ok (chopNl out) (chopNl env.stderrBuf),
            some written, false, s⟩

/-- Outcome of `stop` (`bash.py` lines 43–49): raise if never started, no-op
if the shell already exited, otherwise `terminate()` the shell process. -/
inductive StopOutcome
  | raisedNotStarted
  | noop
  | terminated
deriving DecidableEq, Repr

/-- Model of `_BashSession.stop`. Unlike `run`, this is the one place the session
signals its shell process. -/
def stop (s : BashSessionState) : StopOutcome :=
  if !s.started then StopOutcome.raisedNotStarted
  else
    match s.returncode with
    | some _ => StopOutcome.noop
    | none => StopOutcome.terminated

end BashSession

/-! ## RetryingExecutor — `BashTool.run`, `src/tools/bash.py` lines 151–217 -/

/-- Modelled from the spec: the `ToolResult` record of `tools/base.py`, which
is imported by `bash.py` but absent from the source tree. Per the spec's data
model it is the outward-facing result with optional output text, error text,
system note and image payload; the call sites in `bash.py` construct it by
keyword (`ToolResult(output=..., error=...)` etc.), so it is a record of
optional fields, `none` for fields not passed. -/
structure ToolResult where
  output : Option String
  error : Option String
  system : Option String
  base64_image : Option String
deriving DecidableEq, Repr

/-- Constant `BashTool.MAX_RETRIES`, `bash.py` line 119. -/
def MAX_RETRIES : Nat := 3

/-- Constant `BashTool.DEFAULT_TIMEOUT`, `bash.py` line 118 (`30.0` seconds, exact). -/
def DEFAULT_TIMEOUT : Rat := 30

/-- What one `asyncio.wait_for(run(command), timeout=30.0)` attempt does:
completes with the one-shot runner's `(returncode, stdout, stderr)` triple,
raises `asyncio.TimeoutError`, or raises some other exception (whose
`str(e)` is `msg`). -/
inductive AttemptOutcome
  | completes (returncode : Int) (stdout stderr : String)
  | timeout
  | failure (msg : String)
deriving DecidableEq, Repr

/-- How `BashTool.run` ends: a normal `return` of a `ToolResult`, an
uncaught exception (the `IndexError` from `command.split()[0]` on a
whitespace-only command during cleanup), or the implicit `return None` if
the `for` loop were ever exhausted (unreachable for `MAX_RETRIES ≥ 1`). -/
inductive RetryResult
  | returned (r : ToolResult)
  | raised (msg : String)
  | fellThrough
deriving DecidableEq, Repr

/-- Result of `BashTool.run` plus the effects the claims speak about:
`invocations` counts the `run(command)` calls made (one per loop attempt
that was entered), `cleanups` lists the best-effort `pkill` command strings
issued between attempts. -/
structure RetryEffect where
  result : RetryResult
  invocations : Nat
  cleanups : List String
deriving DecidableEq, Repr

/-- The timeout message of attempt `attempt` (0-based):
`f"Command timed out after {DEFAULT_TIMEOUT}s (attempt {attempt + 1}/{MAX_RETRIES})"`,
with `30.0` being how Python formats the float. -/
def timeoutMsg (attempt : Nat) : String :=
  "Command timed out after 30.0s (attempt " ++ toString (attempt + 1) ++ "/" ++
    toString MAX_RETRIES ++ ")"

/-- The body of `BashTool.run`'s `for attempt in range(MAX_RETRIES)` loop,
recursing on the number of iterations left (`fuel`; the top-level call uses
`MAX_RETRIES`, so the `fuel = 0` fall-through is unreachable there).

Per attempt: on completion, `return ToolResult(output=stdout, error=stderr)`;
on a non-timeout exception, `return ToolResult(error=f"Command failed: {e}")`;
on timeout, if this was the last attempt (`attempt == MAX_RETRIES - 1`),
`return ToolResult(error=error_msg)`, else run
`run("pkill -f " + command.split()[0])` as best-effort cleanup (modelled as
recording the pkill command; the `IndexError` on an empty token raises),
sleep briefly, and retry. -/
def bashToolLoop (command : String) (env : Nat → AttemptOutcome) :
    Nat → Nat → RetryEffect
  | _, 0 => ⟨RetryResult.fellThrough, 0, []⟩
  | attempt, fuel + 1 =>
    match env attempt with
    | AttemptOutcome.completes _ out err =>
      ⟨RetryResult.returned ⟨some out, some err, none, none⟩, 1, []⟩
    | AttemptOutcome.failure msg =>
      ⟨RetryResult.returned ⟨none, some ("Command failed: " ++ msg), none, none⟩, 1, []⟩
    | AttemptOutcome.timeout =>
      if attempt = MAX_RETRIES - 1 then
        ⟨RetryResult.returned ⟨none, some (timeoutMsg attempt), none, none⟩, 1, []⟩
      else
        match firstToken command with
        | none => ⟨RetryResult.raised "IndexError: list index out of range", 1, []⟩
        | some tok =>
          let rest := bashToolLoop command env (attempt + 1) fuel
          ⟨rest.result, rest.invocations + 1, ("pkill -f " ++ tok) :: rest.cleanups⟩

namespace BashTool

/-- Model of `BashTool.run(command)`: the retry loop entered at attempt 0 with
`MAX_RETRIES` iterations available. -/
def run (command : String) (env : Nat → AttemptOutcome) : RetryEffect :=
  bashToolLoop command env 0 MAX_RETRIES

end BashTool

/-! ## Claims -/

/-- Claim C1 (the repository's recorded bug): the sentinel-protocol logic of
`_BashSession.run`, abstracted over buffer delivery, does return a promptly
echoed line as stdout with empty stderr under the default timeout: running
`echo "test output"` makes the shell write `test output`, a newline and the
sentinel line to the stdout buffer, and the polling loop finds the sentinel
and returns the text before it with the trailing newline stripped. The
repository's own test `test_bash_missing_sentinel` nevertheless asserts that
this very call raises a timeout `ToolError` at runtime — a buffer-delivery
race outside this embedding — and the spec directs that the behaviour proved
here is the intended contract. -/
theorem c1_sentinel_logic_completes_echo :
    BashSession.run ⟨true, false, none⟩ "echo \"test output\""
        ⟨["test output\n<<exit>>\n"], ""⟩ =
      ⟨BashSession.SessionRunResult.ok "test output" "",
        some "echo \"test output\"; echo '<<exit>>'\n", false,
        ⟨true, false, none⟩⟩ := by
  decide

/-- Claim C2, counterexample: a session that timed out while running `exit`
(so the shell also terminated, setting its exit status) does not fail with
`AlreadyTimedOut` on the next `run`: the exit-status check at `bash.py`
line 55 precedes the timed-out check at line 60, so the call returns the
`bash has exited` result instead — though still without touching stdin. -/
theorem c2_counterexample :
    (BashSession.run ⟨true, true, some 0⟩ "ls" ⟨[], ""⟩).result =
      BashSession.SessionRunResult.exitedResult 0 ∧
    BashSession.SessionRunResult.exitedResult 0 ≠
      BashSession.SessionRunResult.raisedAlreadyTimedOut := by
  decide

/-- Claim C2, amended: once a `run` call has timed out, the session's
timed-out flag is set and never cleared, and every subsequent `run` call on
that session refuses to execute without writing to the shell's stdin: it
fails with `AlreadyTimedOut` when the shell process is still alive, but
returns the process-exited restart result instead when the shell has
meanwhile terminated. -/
theorem c2_timed_out_session_refuses (s : BashSessionState) (cmd : String)
    (env : BashSession.SessionEnv) (hst : s.started = true)
    (hto : s.timed_out = true) :
    (BashSession.run s cmd env).stdinWritten = none ∧
    (BashSession.run s cmd env).state' = s ∧
    (s.returncode = none →
      BashSession.run s cmd env =
        ⟨BashSession.SessionRunResult.raisedAlreadyTimedOut, none, false, s⟩) ∧
    ∀ rc, s.returncode = some rc →
      BashSession.run s cmd env =
        ⟨BashSession.SessionRunResult.exitedResult rc, none, false, s⟩ := by
  rcases hrc : s.returncode with _ | rc <;>
    simp [BashSession.run, hst, hto, hrc]

/-- Witness for C2's amended theorem at a concrete timed-out session. -/
theorem c2_witness :
    BashSession.run ⟨true, true, none⟩ "ls" ⟨[], ""⟩ =
      ⟨BashSession.SessionRunResult.raisedAlreadyTimedOut, none, false,
        ⟨true, true, none⟩⟩ :=
  (c2_timed_out_session_refuses ⟨true, true, none⟩ "ls" ⟨[], ""⟩ rfl rfl).2.2.1 rfl

/-- Claim C3: when every `run(command)` attempt times out, `BashTool.run`
returns (never raises) a `ToolResult` whose error field is the non-empty
final timeout message and whose output field is empty, after exactly
`MAX_RETRIES` invocations of the one-shot runner on `command`, with exactly
`MAX_RETRIES - 1` best-effort `pkill` cleanup passes in between. -/
theorem c3_retry_exhaustion (command : String) (env : Nat → AttemptOutcome)
    (tok : String) (htok : firstToken command = some tok)
    (hto : ∀ i, env i = AttemptOutcome.timeout) :
    BashTool.run command env =
      ⟨RetryResult.returned ⟨none, some (timeoutMsg (MAX_RETRIES - 1)), none, none⟩,
        MAX_RETRIES, List.replicate (MAX_RETRIES - 1) ("pkill -f " ++ tok)⟩ ∧
    timeoutMsg (MAX_RETRIES - 1) ≠ "" := by
  constructor
  · have h0 := hto 0; have h1 := hto 1; have h2 := hto 2
    simp [BashTool.run, MAX_RETRIES, bashToolLoop, h0, h1, h2, htok,
      List.replicate]
  · decide

/-- Witness for C3 at a command that always times out. -/
theorem c3_witness :
    BashTool.run "sleep 100" (fun _ => AttemptOutcome.timeout) =
      ⟨RetryResult.returned ⟨none, some (timeoutMsg (MAX_RETRIES - 1)), none, none⟩,
        MAX_RETRIES, List.replicate (MAX_RETRIES - 1) ("pkill -f " ++ "sleep")⟩ ∧
    timeoutMsg (MAX_RETRIES - 1) ≠ "" :=
  c3_retry_exhaustion "sleep 100" (fun _ => AttemptOutcome.timeout) "sleep"
    (by decide) (fun _ => rfl)

/-- Claim C4, counterexample: an invocation that completes with empty stdout
and non-empty stderr yields `ToolResult(output=stdout, error=stderr)` — the
output field is the empty stdout, not the stderr text, and the error field is
populated even though the execution succeeded. -/
theorem c4_counterexample :
    (BashTool.run "make"
        (fun i => if i = 0 then AttemptOutcome.completes 0 "" "warning"
          else AttemptOutcome.timeout)).result =
      RetryResult.returned ⟨some "", some "warning", none, none⟩ ∧
    (some "" : Option String) ≠ some "warning" ∧
    (some "warning" : Option String) ≠ none := by
  decide

/-- Claim C4, amended: on an invocation that completes within the timeout,
`BashTool.run` returns after one attempt, with no cleanup passes, a
`ToolResult` carrying stdout verbatim in its output field and stderr
verbatim in its error field; stderr is never promoted into the output field
when stdout is empty (only the debug log uses stdout-else-stderr), so a
successful execution with non-empty stderr does produce an error-carrying
result. -/
theorem c4_success_result_fields (command : String) (env : Nat → AttemptOutcome)
    (rc : Int) (out err : String)
    (h : env 0 = AttemptOutcome.completes rc out err) :
    BashTool.run command env =
      ⟨RetryResult.returned ⟨some out, some err, none, none⟩, 1, []⟩ := by
  simp [BashTool.run, MAX_RETRIES, bashToolLoop, h]

/-- Witness for C4's amended theorem at a concrete completing command. -/
theorem c4_witness :
    BashTool.run "ls" (fun _ => AttemptOutcome.completes 0 "file" "") =
      ⟨RetryResult.returned ⟨some "file", some "", none, none⟩, 1, []⟩ :=
  c4_success_result_fields "ls" (fun _ => AttemptOutcome.completes 0 "file" "")
    0 "file" "" rfl

/-- Claim C5, counterexample: calling `start` a second time on an
already-started session returns silently (`if self._started: return`) with
the state unchanged — an idempotent no-op, not an `AlreadyStarted` failure. -/
theorem c5_counterexample :
    BashSession.start (BashSession.start ⟨false, false, none⟩).2 =
      (BashSession.StartOutcome.noop, (BashSession.start ⟨false, false, none⟩).2) ∧
    BashSession.StartOutcome.noop ≠ BashSession.StartOutcome.raisedAlreadyStarted := by
  decide

/-- Claim C5, amended: calling `start` on an already-started session is an
idempotent no-op: it returns immediately without spawning a shell and
without changing the session state, and produces no error. -/
theorem c5_start_idempotent_noop (s : BashSessionState) (h : s.started = true) :
    BashSession.start s = (BashSession.StartOutcome.noop, s) := by
  simp [BashSession.start, h]

/-- Witness for C5's amended theorem at a concrete started session. -/
theorem c5_witness :
    BashSession.start ⟨true, false, none⟩ =
      (BashSession.StartOutcome.noop, ⟨true, false, none⟩) :=
  c5_start_idempotent_noop ⟨true, false, none⟩ rfl

/-- Claim C6, counterexample: `maybe_truncate` with bound `0` returns the
text unchanged for a longer text, because Python's `not truncate_after`
treats `0` like `None`; the claim demands the first `0` characters plus the
notice. -/
theorem c6_counterexample :
    maybe_truncate "ab" (some 0) = Except.ok "ab" ∧
    "ab" ≠ String.take "ab" 0 ++ TRUNCATED_MESSAGE := by
  decide

/-- Claim C6, amended: for a positive bound, `maybe_truncate` returns the
text unchanged when its length is within the bound and the first `maxLength`
characters followed by the fixed notice when it is longer; but a bound of
`0` is treated like `None` (truthiness) and returns any text unchanged. -/
theorem c6_truncate_amended (t : String) (m : Int) (hm : 0 < m) :
    ((t.length : Int) ≤ m → maybe_truncate t (some m) = Except.ok t) ∧
    (m < (t.length : Int) →
      maybe_truncate t (some m) =
        Except.ok (t.take m.toNat ++ TRUNCATED_MESSAGE)) ∧
    maybe_truncate t (some 0) = Except.ok t := by
  refine ⟨fun hle => ?_, fun hgt => ?_, ?_⟩
  · simp only [maybe_truncate]
    rw [if_neg (by omega), if_pos (Or.inr hle)]
  · simp only [maybe_truncate]
    rw [if_neg (by omega), if_neg (by omega)]
  · simp [maybe_truncate]

/-- Witness for C6's amended theorem at concrete texts and bounds. -/
theorem c6_witness :
    maybe_truncate "abc" (some 2) =
      Except.ok (String.take "abc" (2 : Int).toNat ++ TRUNCATED_MESSAGE) ∧
    maybe_truncate "abc" (some 5) = Except.ok "abc" ∧
    maybe_truncate "abc" (some 0) = Except.ok "abc" :=
  ⟨((c6_truncate_amended "abc" 2 (by decide)).2.1 (by decide)),
   ((c6_truncate_amended "abc" 5 (by decide)).1 (by decide)),
   (c6_truncate_amended "abc" 2 (by decide)).2.2⟩

/-- Claim C7: when the one-shot `run` times out, a SIGTERM is attempted on
the entire process group whether or not the group still exists, an
already-gone group changes nothing about the outcome (the lookup error is
swallowed), and the call fails with the timeout error carrying the command
and the timeout value — never a normal result. -/
theorem c7_timeout_group_termination (cmd : String) (τ : Option Rat)
    (ta : Option Int) (alive : Bool) :
    run cmd τ ta (ProcOutcome.timedOut alive) =
      ⟨Except.error (RunError.timedOut cmd τ), true, alive⟩ ∧
    (run cmd τ ta (ProcOutcome.timedOut true)).result =
      (run cmd τ ta (ProcOutcome.timedOut false)).result :=
  ⟨rfl, rfl⟩

/-- Claim C8, counterexample: two distinct sessions have the same sentinel
string, because `_sentinel` is the fixed class-level literal shared by every
instance. -/
theorem c8_counterexample :
    (⟨true, false, none⟩ : BashSessionState) ≠ ⟨true, true, none⟩ ∧
    BashSession.sentinelOf ⟨true, false, none⟩ =
      BashSession.sentinelOf ⟨true, true, none⟩ := by
  decide

/-- Claim C8, amended: every session's sentinel is the one fixed literal
`<<exit>>`; it is not derived per-session, so any two sessions share it. -/
theorem c8_sentinel_fixed_literal :
    (∀ s : BashSessionState, BashSession.sentinelOf s = "<<exit>>") ∧
    ∀ s₁ s₂ : BashSessionState,
      BashSession.sentinelOf s₁ = BashSession.sentinelOf s₂ :=
  ⟨fun _ => rfl, fun _ _ => rfl⟩

/-- Claim C9: when a session `run` call times out, no signal is sent to the
shell process; the only change is to the session object itself — the
timed-out flag is set (permanently disabling it) while the started flag and
the shell's exit status are untouched. The command had been written to
stdin, so the shell may keep running it. -/
theorem c9_timeout_frame (s : BashSessionState) (cmd : String)
    (env : BashSession.SessionEnv) (hst : s.started = true)
    (hrc : s.returncode = none) (hto : s.timed_out = false)
    (hpoll : BashSession.pollForSentinel env.polls = none) :
    BashSession.run s cmd env =
      ⟨BashSession.SessionRunResult.raisedTimedOut,
        some (cmd ++ "; echo '" ++ BashSession._sentinel ++ "'\n"), false,
        { s with timed_out := true }⟩ ∧
    (BashSession.run s cmd env).signaledProcess = false ∧
    (BashSession.run s cmd env).state'.started = s.started ∧
    (BashSession.run s cmd env).state'.returncode = s.returncode := by
  have hrun : BashSession.run s cmd env =
      ⟨BashSession.SessionRunResult.raisedTimedOut,
        some (cmd ++ "; echo '" ++ BashSession._sentinel ++ "'\n"), false,
        { s with timed_out := true }⟩ := by
    simp [BashSession.run, hst, hrc, hto, hpoll]
  exact ⟨hrun, by rw [hrun], by rw [hrun], by rw [hrun]⟩

/-- Witness for C9 at a concrete session whose poll window never shows the
sentinel. -/
theorem c9_witness :
    BashSession.run ⟨true, false, none⟩ "sleep 60" ⟨[], ""⟩ =
      ⟨BashSession.SessionRunResult.raisedTimedOut,
        some ("sleep 60" ++ "; echo '" ++ BashSession._sentinel ++ "'\n"), false,
        ⟨true, true, none⟩⟩ :=
  (c9_timeout_frame ⟨true, false, none⟩ "sleep 60" ⟨[], ""⟩ rfl rfl rfl rfl).1

/-- Claim C10: when the one-shot `run` completes before the timeout, the
returned stdout and stderr are the child's decoded streams with leading and
trailing whitespace stripped, and the stripping happens before truncation:
the result streams are `maybe_truncate` applied to the stripped text, and in
particular a stream whose stripped form fits the bound is returned exactly
stripped and untruncated. -/
theorem c10_strip_before_truncate (cmd : String) (τ : Option Rat) (t : Int)
    (rc : Option Int) (out err : String) :
    (∀ o e, maybe_truncate (pyStrip out) (some t) = Except.ok o →
        maybe_truncate (pyStrip err) (some t) = Except.ok e →
      run cmd τ (some t) (ProcOutcome.completed rc out err) =
        ⟨Except.ok (rc.getD 0, o, e), false, false⟩) ∧
    (0 ≤ t → ((pyStrip out).length : Int) ≤ t → ((pyStrip err).length : Int) ≤ t →
      run cmd τ (some t) (ProcOutcome.completed rc out err) =
        ⟨Except.ok (rc.getD 0, pyStrip out, pyStrip err), false, false⟩) := by
  constructor
  · intro o e ho he
    simp [run, ho, he]
  · intro ht hlo hle
    have ho : maybe_truncate (pyStrip out) (some t) = Except.ok (pyStrip out) := by
      simp only [maybe_truncate]
      rw [if_neg (by omega), if_pos (Or.inr hlo)]
    have he : maybe_truncate (pyStrip err) (some t) = Except.ok (pyStrip err) := by
      simp only [maybe_truncate]
      rw [if_neg (by omega), if_pos (Or.inr hle)]
    simp [run, ho, he]

/-- Witness for C10 at a concrete completed command whose raw stdout carries
surrounding whitespace. -/
theorem c10_witness :
    run "echo hi" (some 120) (some 5)
        (ProcOutcome.completed (some 0) "  ab  " "x") =
      ⟨Except.ok ((some 0).getD 0, pyStrip "  ab  ", pyStrip "x"),
        false, false⟩ :=
  (c10_strip_before_truncate "echo hi" (some 120) 5 (some 0) "  ab  " "x").2
    (by decide) (by decide) (by decide)

end MacComputerUse
